import Mathlib

/-!
# SX12XX-LoRa : `examples/SX126x_examples/Basics/3_LoRa_Transmitter/Settings.h`

A shallow embedding of the settings header of the SX126x LoRa transmitter
sketch, and of the configuration contract that consumes it.

* Part 1 embeds the header itself: the pin `#define`s as integers and the
  `const` declarations as a declared C type together with the initialiser
  written in the source.
* Part 2 holds what the header refers to but does not contain (the driver's
  enumerations and the configuration validator); every such definition says
  so in its doc comment.
* Part 3 states and proves the properties.
-/

namespace SX12XX

/-! ## Part 1 : Settings.h -/

/-! ### Pin definitions (lines 15-22) -/

/-- Line 15, `#define NSS 10` : select pin on the LoRa device. -/
def NSS : Int := 10
/-- Line 16, `#define NRESET 9` : reset pin on the LoRa device. -/
def NRESET : Int := 9
/-- Line 17, `#define LED1 8` : on board LED. -/
def LED1 : Int := 8
/-- Line 18, `#define RFBUSY 7` : SX126X busy pin. -/
def RFBUSY : Int := 7
/-- Line 19, `#define DIO1 3` : DIO1 pin, used for RX and TX done. -/
def DIO1 : Int := 3
/-- Line 20, `#define DIO2 -1` : normally not used. -/
def DIO2 : Int := -1
/-- Line 21, `#define DIO3 -1` : normally not used. -/
def DIO3 : Int := -1
/-- Line 22, `#define SW -1` : RF switch pin on Dorji devices. -/
def SW : Int := -1

/-- The pins the header's comments describe as in use by the sketch
(lines 15-19), in source order. -/
def usedPins : List Int := [NSS, NRESET, LED1, RFBUSY, DIO1]

/-- The pins the header's comments describe as not used (lines 11-13 and the
comments of lines 20-22), in source order. -/
def unusedPins : List Int := [DIO2, DIO3, SW]

/-! ### Fixed-width C types of the `const` declarations -/

/-- The `<stdint.h>` types that occur in the header (`uint8_t`, `uint16_t`,
`uint32_t`, `int8_t`) and the signed 32-bit type. -/
inductive CType where
  | uint8_t
  | uint16_t
  | uint32_t
  | int8_t
  | int32_t
  deriving DecidableEq, Repr

namespace CType

/-- Width in bits. -/
def bits : CType → Nat
  | uint8_t => 8
  | uint16_t => 16
  | uint32_t => 32
  | int8_t => 8
  | int32_t => 32

/-- Signedness. -/
def isSigned : CType → Bool
  | uint8_t => false
  | uint16_t => false
  | uint32_t => false
  | int8_t => true
  | int32_t => true

/-- Least representable value. -/
def minVal (t : CType) : Int :=
  if t.isSigned then -(2 ^ (t.bits - 1) : Int) else 0

/-- Greatest representable value. -/
def maxVal (t : CType) : Int :=
  if t.isSigned then (2 ^ (t.bits - 1) : Int) - 1 else (2 ^ t.bits : Int) - 1

/-- A mathematical integer is representable in the type. -/
def representable (t : CType) (v : Int) : Prop :=
  t.minVal ≤ v ∧ v ≤ t.maxVal

instance (t : CType) (v : Int) : Decidable (t.representable v) := by
  unfold representable; infer_instance

/-- Conversion of an initialiser to the declared type: reduction modulo
`2 ^ bits` for the unsigned types, two's-complement wrap for the signed ones
(what avr-gcc and gcc do). -/
def convert (t : CType) (v : Int) : Int :=
  if t.isSigned then
    (v + 2 ^ (t.bits - 1)) % 2 ^ t.bits - 2 ^ (t.bits - 1)
  else
    v % 2 ^ t.bits

end CType

/-- A declaration `const <ty> <name> = <init>;` with a numeric initialiser. -/
structure ConstDecl where
  ty : CType
  init : Int
  deriving DecidableEq, Repr

/-- The value the constant holds when it is read. -/
def ConstDecl.value (d : ConstDecl) : Int := d.ty.convert d.init

/-! ### LoRa modem parameters (lines 31-41) -/

/-- Line 31, `const uint32_t Frequency = 434000000;` -/
def Frequency : ConstDecl := ⟨.uint32_t, 434000000⟩

/-- Line 32, `const uint32_t Offset = 0;` -/
def Offset : ConstDecl := ⟨.uint32_t, 0⟩

/-- Line 39, `const int8_t TXpower = 10;` -/
def TXpower : ConstDecl := ⟨.int8_t, 10⟩

/-- Line 41, `const uint16_t packet_delay = 1000;` -/
def packet_delay : ConstDecl := ⟨.uint16_t, 1000⟩

/-- The sum `Frequency + Offset` as computed on two `uint32_t` operands. -/
def programmedFrequency : Int :=
  (Frequency.value + Offset.value) % 2 ^ 32

/-! ## Part 2 : what the header refers to -/

/-- Modelled from the spec: the bandwidth macros of the driver's definitions
header, which is not part of the sources. `LORA_BW_125` is the initialiser of
line 34; the spec gives the field as an enumeration of discrete steps from
7.8 kHz to 500 kHz, taken here as the ten LoRa bandwidths of the SX126x. -/
inductive LoRaBandwidth where
  | LORA_BW_007
  | LORA_BW_010
  | LORA_BW_015
  | LORA_BW_020
  | LORA_BW_031
  | LORA_BW_041
  | LORA_BW_062
  | LORA_BW_125
  | LORA_BW_250
  | LORA_BW_500
  deriving DecidableEq, Repr

/-- Modelled from the spec: the bandwidth in hertz that each bandwidth macro
stands for (the driver's lookup is not part of the sources). -/
def LoRaBandwidth.hz : LoRaBandwidth → Nat
  | LORA_BW_007 => 7810
  | LORA_BW_010 => 10420
  | LORA_BW_015 => 15630
  | LORA_BW_020 => 20830
  | LORA_BW_031 => 31250
  | LORA_BW_041 => 41670
  | LORA_BW_062 => 62500
  | LORA_BW_125 => 125000
  | LORA_BW_250 => 250000
  | LORA_BW_500 => 500000

/-- Modelled from the spec: the spreading-factor macros of the driver's
definitions header (SF5 to SF12); `LORA_SF7` is the initialiser of line 35. -/
inductive LoRaSpreadingFactor where
  | LORA_SF5
  | LORA_SF6
  | LORA_SF7
  | LORA_SF8
  | LORA_SF9
  | LORA_SF10
  | LORA_SF11
  | LORA_SF12
  deriving DecidableEq, Repr

/-- Modelled from the spec: the exponent SF that each spreading-factor macro
stands for. -/
def LoRaSpreadingFactor.exponent : LoRaSpreadingFactor → Nat
  | LORA_SF5 => 5
  | LORA_SF6 => 6
  | LORA_SF7 => 7
  | LORA_SF8 => 8
  | LORA_SF9 => 9
  | LORA_SF10 => 10
  | LORA_SF11 => 11
  | LORA_SF12 => 12

/-- Modelled from the spec: the coding-rate macros of the driver's
definitions header (4/5, 4/6, 4/7, 4/8); `LORA_CR_4_5` is the initialiser of
line 36. -/
inductive LoRaCodeRate where
  | LORA_CR_4_5
  | LORA_CR_4_6
  | LORA_CR_4_7
  | LORA_CR_4_8
  deriving DecidableEq, Repr

/-- Modelled from the spec: the low-data-rate-optimisation macros of the
driver's definitions header (off, on, auto); `LDRO_AUTO` is the initialiser
of line 37. -/
inductive LdroSetting where
  | LDRO_OFF
  | LDRO_ON
  | LDRO_AUTO
  deriving DecidableEq, Repr

/-- Line 34, `const uint8_t Bandwidth = LORA_BW_125;` -/
def Bandwidth : LoRaBandwidth := .LORA_BW_125

/-- Line 35, `const uint8_t SpreadingFactor = LORA_SF7;` -/
def SpreadingFactor : LoRaSpreadingFactor := .LORA_SF7

/-- Line 36, `const uint8_t CodeRate = LORA_CR_4_5;` -/
def CodeRate : LoRaCodeRate := .LORA_CR_4_5

/-- Line 37, `const uint8_t Optimisation = LDRO_AUTO;` -/
def Optimisation : LdroSetting := .LDRO_AUTO

/-- Modelled from the spec: the configuration value object of the spec's data
model (the driver that consumes the header is not part of the sources). -/
structure RadioConfig where
  frequencyHz : Nat
  offsetHz : Int
  bandwidth : LoRaBandwidth
  spreadingFactor : LoRaSpreadingFactor
  codeRate : LoRaCodeRate
  lowDataRateOptimize : LdroSetting
  txPowerDbm : Int
  interPacketDelayMs : Nat
  deriving DecidableEq, Repr

/-- Modelled from the spec: the normalised configuration that validation
hands on; low data rate optimisation is resolved to on (`true`) or off
(`false`). -/
structure ValidatedConfig where
  frequencyHz : Nat
  offsetHz : Int
  bandwidth : LoRaBandwidth
  spreadingFactor : LoRaSpreadingFactor
  codeRate : LoRaCodeRate
  ldroOn : Bool
  txPowerDbm : Int
  interPacketDelayMs : Nat
  deriving DecidableEq, Repr

/-- Modelled from the spec: the error kinds of the spec's error handling
design. -/
inductive ConfigError where
  | OutOfBandFrequency
  | IncompatibleModulationParams
  | PowerOutOfRange
  | InvalidEnumValue
  deriving DecidableEq, Repr

/-- Modelled from the spec: lower edge of the device band, 150 MHz. -/
def bandMinHz : Nat := 150000000

/-- Modelled from the spec: upper edge of the device band, 960 MHz. -/
def bandMaxHz : Nat := 960000000

/-- Modelled from the spec: least supported transmit power, -9 dBm. -/
def minPowerDbm : Int := -9

/-- Modelled from the spec: greatest supported transmit power, +22 dBm. -/
def maxPowerDbm : Int := 22

/-- Modelled from the spec: the threshold on the symbol duration that decides
automatic low data rate optimisation, 4.0 ms. -/
def ldroThresholdMs : ℚ := 4

/-- Modelled from the spec: LoRa symbol duration `2 ^ SF / bandwidth`, in
milliseconds, as an exact rational. -/
def symbolDurationMs (bw : LoRaBandwidth) (sf : LoRaSpreadingFactor) : ℚ :=
  (2 ^ sf.exponent * 1000 : ℚ) / bw.hz

/-- Modelled from the spec: the frequency check of the validator. -/
def inBand (f : Nat) : Bool := decide (bandMinHz ≤ f) && decide (f ≤ bandMaxHz)

/-- Modelled from the spec: the transmit-power check of the validator. An
out-of-range power is rejected, not clamped. -/
def checkPower (p : Int) : Except ConfigError Int :=
  if minPowerDbm ≤ p ∧ p ≤ maxPowerDbm then .ok p else .error .PowerOutOfRange

/-- Modelled from the spec: resolution of the low data rate optimisation
setting. `auto` becomes off when the symbol duration is below the threshold
and on otherwise; `on` and `off` are kept. -/
def resolveLdro (s : LdroSetting) (bw : LoRaBandwidth) (sf : LoRaSpreadingFactor) : Bool :=
  match s with
  | .LDRO_OFF => false
  | .LDRO_ON => true
  | .LDRO_AUTO => decide (ldroThresholdMs ≤ symbolDurationMs bw sf)

/-- Modelled from the spec: `validate` of the RadioConfigValidator, with the
checks in the order the spec lists them. The greatest admissible symbol
duration is not fixed by the spec and is a parameter. -/
def validate (maxSymbolMs : ℚ) (c : RadioConfig) : Except ConfigError ValidatedConfig :=
  if inBand c.frequencyHz = false then
    .error .OutOfBandFrequency
  else if maxSymbolMs < symbolDurationMs c.bandwidth c.spreadingFactor then
    .error .IncompatibleModulationParams
  else
    match checkPower c.txPowerDbm with
    | .error e => .error e
    | .ok p =>
      .ok
        { frequencyHz := c.frequencyHz
          offsetHz := c.offsetHz
          bandwidth := c.bandwidth
          spreadingFactor := c.spreadingFactor
          codeRate := c.codeRate
          ldroOn := resolveLdro c.lowDataRateOptimize c.bandwidth c.spreadingFactor
          txPowerDbm := p
          interPacketDelayMs := c.interPacketDelayMs }

/-- The configuration that Settings.h ships, field by field. -/
def shippedConfig : RadioConfig :=
  { frequencyHz := Frequency.value.toNat
    offsetHz := Offset.value
    bandwidth := Bandwidth
    spreadingFactor := SpreadingFactor
    codeRate := CodeRate
    lowDataRateOptimize := Optimisation
    txPowerDbm := TXpower.value
    interPacketDelayMs := packet_delay.value.toNat }

/-! ## Part 3 : properties -/

/-! ### Helper lemmas -/

/-- A representable initialiser is stored unchanged. -/
theorem CType.convert_of_representable (t : CType) (v : Int)
    (h : t.representable v) : t.convert v = v := by
  obtain ⟨hlo, hhi⟩ := h
  cases t <;>
    simp only [CType.minVal, CType.maxVal, CType.isSigned, CType.bits,
      if_true, if_false] at hlo hhi <;>
    simp only [CType.convert, CType.isSigned, CType.bits, if_true, if_false] <;>
    norm_num at hlo hhi ⊢ <;>
    omega

/-- The validator's frequency check, spelled out. -/
theorem inBand_eq_true_iff (f : Nat) :
    inBand f = true ↔ 150000000 ≤ f ∧ f ≤ 960000000 := by
  simp [inBand, bandMinHz, bandMaxHz]

/-- The validator's frequency check fails exactly outside the band. -/
theorem inBand_eq_false_iff (f : Nat) :
    inBand f = false ↔ f < 150000000 ∨ 960000000 < f := by
  rw [← Bool.not_eq_true, inBand_eq_true_iff]
  omega

/-- The power check accepts exactly the supported range and returns the power
it was given. -/
theorem checkPower_ok_iff (p q : Int) :
    checkPower p = .ok q ↔ (-9 ≤ p ∧ p ≤ 22) ∧ q = p := by
  unfold checkPower minPowerDbm maxPowerDbm
  split
  · rename_i h
    constructor
    · intro hq
      injection hq with hq
      exact ⟨h, hq.symm⟩
    · rintro ⟨_, rfl⟩
      rfl
  · rename_i h
    constructor
    · intro hq
      cases hq
    · rintro ⟨h', _⟩
      exact absurd h' h

/-- Outside the supported range the power check rejects. -/
theorem checkPower_error_of_out_of_range (p : Int) (h : p < -9 ∨ 22 < p) :
    checkPower p = .error .PowerOutOfRange := by
  unfold checkPower minPowerDbm maxPowerDbm
  rw [if_neg]
  omega

/-- With frequency and modulation accepted, `validate` is decided by the power
check alone. -/
theorem validate_of_band_and_symbol (M : ℚ) (c : RadioConfig)
    (hf : inBand c.frequencyHz = true)
    (hs : symbolDurationMs c.bandwidth c.spreadingFactor ≤ M) :
    validate M c =
      match checkPower c.txPowerDbm with
      | .error e => .error e
      | .ok p =>
        .ok
          { frequencyHz := c.frequencyHz
            offsetHz := c.offsetHz
            bandwidth := c.bandwidth
            spreadingFactor := c.spreadingFactor
            codeRate := c.codeRate
            ldroOn := resolveLdro c.lowDataRateOptimize c.bandwidth c.spreadingFactor
            txPowerDbm := p
            interPacketDelayMs := c.interPacketDelayMs } := by
  unfold validate
  rw [if_neg (by simp [hf]), if_neg (not_lt.mpr hs)]

/-- The symbol duration of the shipped modulation parameters. -/
theorem shipped_symbolDuration :
    symbolDurationMs Bandwidth SpreadingFactor = 128 / 125 := by
  norm_num [symbolDurationMs, Bandwidth, SpreadingFactor, LoRaBandwidth.hz,
    LoRaSpreadingFactor.exponent]

/-! ### The shipped configuration -/

/-- C1: for the shipped configuration (bandwidth 125 kHz, SF7, optimisation
auto) the symbol duration `2 ^ 7 / 125000` s is 1.024 ms, strictly below the
4.0 ms threshold, and the automatic low data rate optimisation resolves to
off. -/
theorem shipped_ldro_auto_resolves_off :
    Bandwidth.hz = 125000 ∧ SpreadingFactor.exponent = 7 ∧
    Optimisation = LdroSetting.LDRO_AUTO ∧
    symbolDurationMs Bandwidth SpreadingFactor = 1024 / 1000 ∧
    symbolDurationMs Bandwidth SpreadingFactor < ldroThresholdMs ∧
    ldroThresholdMs = 4 ∧
    resolveLdro Optimisation Bandwidth SpreadingFactor = false := by
  refine ⟨rfl, rfl, rfl, ?_, ?_, rfl, ?_⟩
  · rw [shipped_symbolDuration]; norm_num
  · rw [shipped_symbolDuration]; norm_num [ldroThresholdMs]
  · simp only [resolveLdro, Optimisation, shipped_symbolDuration, ldroThresholdMs]
    norm_num

/-- C2: the shipped frequency 434000000 Hz lies in the band 150 MHz to
960 MHz, and so does `Frequency + Offset`, both as a plain sum and as the
32-bit unsigned sum. -/
theorem shipped_frequency_in_band :
    Frequency.value = 434000000 ∧
    150000000 ≤ Frequency.value ∧ Frequency.value ≤ 960000000 ∧
    150000000 ≤ Frequency.value + Offset.value ∧
    Frequency.value + Offset.value ≤ 960000000 ∧
    programmedFrequency = Frequency.value + Offset.value ∧
    150000000 ≤ programmedFrequency ∧ programmedFrequency ≤ 960000000 := by
  decide

/-- C3: the shipped transmit power 10 dBm satisfies `-9 ≤ TXpower ≤ 22`, and
the power check returns it unchanged, neither clamped nor rejected. -/
theorem shipped_power_accepted :
    TXpower.value = 10 ∧ -9 ≤ TXpower.value ∧ TXpower.value ≤ 22 ∧
    minPowerDbm = -9 ∧ maxPowerDbm = 22 ∧
    checkPower TXpower.value = Except.ok TXpower.value := by
  refine ⟨by decide, by decide, by decide, rfl, rfl, ?_⟩
  exact (checkPower_ok_iff _ _).mpr ⟨⟨by decide, by decide⟩, rfl⟩

/-- C4, as stated, fails: `Offset` is declared `uint32_t`, not a signed 32-bit
type; the negative offset -1 is not representable in it and would be stored
as 4294967295. -/
theorem offset_not_signed :
    ¬ (∀ v : Int, -2 ^ 31 ≤ v → v ≤ 2 ^ 31 - 1 → Offset.ty.representable v) ∧
    Offset.ty ≠ CType.int32_t ∧
    ¬ Offset.ty.representable (-1) ∧
    Offset.ty.convert (-1) = 4294967295 := by
  refine ⟨fun h => ?_, by decide, by decide, by decide⟩
  exact absurd (h (-1) (by norm_num) (by norm_num)) (by decide)

/-- C4, amended: `Offset` is an unsigned 32-bit value; the field represents
exactly the offsets `0 .. 2 ^ 32 - 1` and stores each of them unchanged, and
the shipped value 0 is small relative to `Frequency`
(`|Offset| < Frequency`). -/
theorem offset_unsigned_and_small :
    Offset.ty = CType.uint32_t ∧
    (∀ v : Int, Offset.ty.representable v ↔ 0 ≤ v ∧ v ≤ 2 ^ 32 - 1) ∧
    (∀ v : Int, Offset.ty.convert v = v ↔ 0 ≤ v ∧ v ≤ 2 ^ 32 - 1) ∧
    Offset.value = 0 ∧
    |Offset.value| < Frequency.value := by
  refine ⟨rfl, fun v => ?_, fun v => ?_, by decide, by decide⟩
  · simp only [Offset, CType.representable, CType.minVal, CType.maxVal,
      CType.isSigned, CType.bits]
    norm_num
  · simp only [Offset, CType.convert, CType.isSigned, CType.bits]
    norm_num
    omega

/-- C5: the pins documented as not used are all -1 (`DIO2`, `DIO3`, `SW`),
and none of the pins in use (`NSS`, `NRESET`, `LED1`, `RFBUSY`, `DIO1`) is
-1. -/
theorem unused_pins_are_minus_one :
    DIO2 = -1 ∧ DIO3 = -1 ∧ SW = -1 ∧
    NSS ≠ -1 ∧ NRESET ≠ -1 ∧ LED1 ≠ -1 ∧ RFBUSY ≠ -1 ∧ DIO1 ≠ -1 ∧
    unusedPins.all (fun p => decide (p = -1)) = true ∧
    usedPins.all (fun p => decide (p ≠ -1)) = true := by
  decide

/-! ### The validator -/

/-- C6: for every configuration whose frequency is below 150 MHz or above
960 MHz, `validate` returns the error `OutOfBandFrequency` and no validated
configuration, whatever the other fields (and the symbol-duration limit)
are. -/
theorem validate_out_of_band (M : ℚ) (c : RadioConfig)
    (h : c.frequencyHz < 150000000 ∨ 960000000 < c.frequencyHz) :
    validate M c = Except.error ConfigError.OutOfBandFrequency ∧
    ∀ v : ValidatedConfig, validate M c ≠ Except.ok v := by
  have hv : validate M c = Except.error ConfigError.OutOfBandFrequency := by
    unfold validate
    rw [if_pos ((inBand_eq_false_iff _).mpr h)]
  refine ⟨hv, fun v hok => ?_⟩
  rw [hv] at hok
  cases hok

/-- Witness for C6: a 1 GHz configuration is rejected for its frequency, even
with a power of 30 dBm and a symbol-duration limit of zero. -/
theorem validate_out_of_band_witness :
    validate 0 { shippedConfig with frequencyHz := 1000000000, txPowerDbm := 30 }
      = Except.error ConfigError.OutOfBandFrequency :=
  (validate_out_of_band 0
    { shippedConfig with frequencyHz := 1000000000, txPowerDbm := 30 }
    (Or.inr (by decide))).1

/-- C7: for a configuration whose frequency is in band and whose symbol
duration is within the limit, `validate` succeeds at the powers -9 and +22 and
keeps them, fails with `PowerOutOfRange` at -10, +23 and 30 and at every other
power outside `-9 .. 22`, and a configuration it accepts always carries the
power it was given (no clamping). -/
theorem validate_power_boundaries (M : ℚ) (c : RadioConfig)
    (hf : 150000000 ≤ c.frequencyHz ∧ c.frequencyHz ≤ 960000000)
    (hs : symbolDurationMs c.bandwidth c.spreadingFactor ≤ M) :
    (∃ v, validate M { c with txPowerDbm := -9 } = Except.ok v ∧ v.txPowerDbm = -9) ∧
    (∃ v, validate M { c with txPowerDbm := 22 } = Except.ok v ∧ v.txPowerDbm = 22) ∧
    validate M { c with txPowerDbm := -10 } = Except.error ConfigError.PowerOutOfRange ∧
    validate M { c with txPowerDbm := 23 } = Except.error ConfigError.PowerOutOfRange ∧
    validate M { c with txPowerDbm := 30 } = Except.error ConfigError.PowerOutOfRange ∧
    (∀ p : Int, p < -9 ∨ 22 < p →
      validate M { c with txPowerDbm := p } = Except.error ConfigError.PowerOutOfRange) ∧
    (∀ (p : Int) (v : ValidatedConfig),
      validate M { c with txPowerDbm := p } = Except.ok v →
        v.txPowerDbm = p ∧ -9 ≤ p ∧ p ≤ 22) := by
  have hb : inBand c.frequencyHz = true := (inBand_eq_true_iff _).mpr hf
  have key : ∀ p : Int, validate M { c with txPowerDbm := p } =
      match checkPower p with
      | .error e => .error e
      | .ok q =>
        .ok
          { frequencyHz := c.frequencyHz
            offsetHz := c.offsetHz
            bandwidth := c.bandwidth
            spreadingFactor := c.spreadingFactor
            codeRate := c.codeRate
            ldroOn := resolveLdro c.lowDataRateOptimize c.bandwidth c.spreadingFactor
            txPowerDbm := q
            interPacketDelayMs := c.interPacketDelayMs } :=
    fun p => validate_of_band_and_symbol M { c with txPowerDbm := p } hb hs
  have hok : ∀ p : Int, -9 ≤ p → p ≤ 22 →
      ∃ v, validate M { c with txPowerDbm := p } = Except.ok v ∧ v.txPowerDbm = p := by
    intro p h1 h2
    rw [key p, (checkPower_ok_iff p p).mpr ⟨⟨h1, h2⟩, rfl⟩]
    exact ⟨_, rfl, rfl⟩
  have herr : ∀ p : Int, p < -9 ∨ 22 < p →
      validate M { c with txPowerDbm := p } = Except.error ConfigError.PowerOutOfRange := by
    intro p hp
    rw [key p, checkPower_error_of_out_of_range p hp]
  refine ⟨hok _ (by norm_num) (by norm_num), hok _ (by norm_num) (by norm_num),
    herr _ (Or.inl (by norm_num)), herr _ (Or.inr (by norm_num)),
    herr _ (Or.inr (by norm_num)), herr, ?_⟩
  intro p v hv
  rw [key p] at hv
  cases hc : checkPower p with
  | error e =>
    rw [hc] at hv
    cases hv
  | ok q =>
    rw [hc] at hv
    obtain ⟨hr, hq⟩ := (checkPower_ok_iff p q).mp hc
    injection hv with hv
    subst hv
    exact ⟨hq, hr.1, hr.2⟩

/-- Witness for C7: the shipped configuration, under a symbol-duration limit
of 2 ms, is rejected with `PowerOutOfRange` at +23 dBm. -/
theorem validate_power_boundaries_witness :
    (150000000 ≤ shippedConfig.frequencyHz ∧ shippedConfig.frequencyHz ≤ 960000000) ∧
    symbolDurationMs shippedConfig.bandwidth shippedConfig.spreadingFactor ≤ 2 ∧
    validate 2 { shippedConfig with txPowerDbm := 23 }
      = Except.error ConfigError.PowerOutOfRange :=
  ⟨by decide,
   by simp only [shippedConfig, shipped_symbolDuration]; norm_num,
   (validate_power_boundaries 2 shippedConfig (by decide)
      (by simp only [shippedConfig, shipped_symbolDuration]; norm_num)).2.2.2.1⟩

/-! ### Pin assignment and literals -/

/-- C8: the pins the sketch drives (`NSS`, `NRESET`, `LED1`, `RFBUSY`, `DIO1`)
are all non-negative and pairwise distinct. -/
theorem used_pins_conflict_free :
    0 ≤ NSS ∧ 0 ≤ NRESET ∧ 0 ≤ LED1 ∧ 0 ≤ RFBUSY ∧ 0 ≤ DIO1 ∧
    NSS ≠ NRESET ∧ NSS ≠ LED1 ∧ NSS ≠ RFBUSY ∧ NSS ≠ DIO1 ∧
    NRESET ≠ LED1 ∧ NRESET ≠ RFBUSY ∧ NRESET ≠ DIO1 ∧
    LED1 ≠ RFBUSY ∧ LED1 ≠ DIO1 ∧
    RFBUSY ≠ DIO1 ∧
    usedPins.Nodup := by
  decide

/-- C9: every numeric literal of the `const` declarations is representable in
its declared type (434000000 and 0 below `2 ^ 32`, 10 within `-128 .. 127`,
1000 below `2 ^ 16`), and each constant read back equals the literal
written. -/
theorem literals_fit_declared_types :
    (Frequency.ty = CType.uint32_t ∧ Frequency.init = 434000000 ∧
      0 ≤ Frequency.init ∧ Frequency.init < 2 ^ 32 ∧
      Frequency.ty.representable Frequency.init ∧ Frequency.value = 434000000) ∧
    (Offset.ty = CType.uint32_t ∧ Offset.init = 0 ∧
      0 ≤ Offset.init ∧ Offset.init < 2 ^ 32 ∧
      Offset.ty.representable Offset.init ∧ Offset.value = 0) ∧
    (TXpower.ty = CType.int8_t ∧ TXpower.init = 10 ∧
      -128 ≤ TXpower.init ∧ TXpower.init ≤ 127 ∧
      TXpower.ty.representable TXpower.init ∧ TXpower.value = 10) ∧
    (packet_delay.ty = CType.uint16_t ∧ packet_delay.init = 1000 ∧
      0 ≤ packet_delay.init ∧ packet_delay.init < 2 ^ 16 ∧
      packet_delay.ty.representable packet_delay.init ∧ packet_delay.value = 1000) := by
  decide

end SX12XX
